import Mathlib

/-!
Verification of the background download job of GrabberX (src/main.py):
the YtDlpWorker progress hook, the worker run loop, cooperative
cancellation, and the start-of-job validation in MainWindow.

The Python code is shallowly embedded: the yt-dlp engine is modelled as
an environment recording the outcome of each engine interaction
(directory creation, metadata extraction, the progress-hook invocations
it performs, and the final outcome of the blocking download call), and
the worker is a pure function from that environment to the list of Qt
signal emissions (the event trace).
-/

namespace GrabberX

/-- The four Qt signals of YtDlpWorker, viewed as a tagged event stream:
progress (int 0-100), status (short line), log (verbose line),
finished (success flag and message). -/
inductive Event where
  | progress (pct : Nat)
  | status (text : String)
  | log (text : String)
  | finished (success : Bool) (message : String)
deriving DecidableEq, Repr

/-- The fields of the dict that yt-dlp passes to a progress hook, as read
by YtDlpWorker._hook via d.get. Absent keys are none. Byte counts,
speed and eta are modelled as exact naturals / integers. -/
structure HookDict where
  status : Option String
  total_bytes : Option Nat
  total_bytes_estimate : Option Nat
  downloaded_bytes : Option Nat
  speed : Option Nat
  eta : Option Int
  filename : String
deriving DecidableEq, Repr

/-- The user-supplied download options (dataclass DownloadOptions). -/
structure DownloadOptions where
  url : String
  out_dir : String
  cookies_file : Option String
deriving DecidableEq, Repr

/-- Python truthiness of an optional number: None and 0 are falsy. -/
def truthy : Option Nat → Bool
  | some n => n != 0
  | none => false

/-- Python `x or y` on optional numbers: yields y when x is None or 0
(falsy), x otherwise. Models `d.get("total_bytes") or
d.get("total_bytes_estimate")`. -/
def pyOr (x y : Option Nat) : Option Nat :=
  match x with
  | some n => if n = 0 then y else some n
  | none => y

/-- os.path.basename: the part of the path after the last slash. -/
def basename (p : String) : String :=
  (p.splitOn "/").getLastD ""

/-- Renders a quantity of hundredths as a fixed-point decimal with two
digits after the point; used to model the "%.2f" formatting of the
download speed. -/
def fmt2 (q : Nat) : String :=
  toString (q / 100) ++ "." ++ (if q % 100 < 10 then "0" else "") ++ toString (q % 100)

/-- The speed in binary megabytes per second to two decimals: models
f"{spd/1024/1024:.2f}" (rounding to the nearest hundredth). -/
def speedMiB (spd : Nat) : String :=
  fmt2 ((spd * 100 + 524288) / 1048576)

/-- The status line built in the "downloading" branch of _hook:
base name of the current file, then speed when truthy, then ETA when
present. -/
def downloadingMsg (d : HookDict) : String :=
  let base := "下载中: " ++ basename d.filename
  let withSpd :=
    if truthy d.speed then
      base ++ " | " ++ speedMiB (d.speed.getD 0) ++ " MiB/s"
    else base
  match d.eta with
  | some e => withSpd ++ " | ETA " ++ toString e ++ "s"
  | none => withSpd

/-- The Progress emission of one "downloading" tick: present exactly when
the resolved total (total_bytes or total_bytes_estimate, Python-or) is
truthy and downloaded_bytes is not None; the value is
int(downloaded * 100 / total) clamped by max(0, min(100, pct)). -/
def progressTick (d : HookDict) : List Event :=
  match pyOr d.total_bytes d.total_bytes_estimate, d.downloaded_bytes with
  | some t, some b => if t ≠ 0 then [Event.progress (max 0 (min 100 (b * 100 / t)))] else []
  | _, _ => []

/-- The three emissions of the "finished" phase branch of _hook. -/
def finishedPhaseEvents : List Event :=
  [Event.progress 100,
   Event.status "下载完成，正在后处理/合并…",
   Event.log "文件下载完成，等待后处理…"]

/-- YtDlpWorker._hook: given the value of the _cancel flag at invocation
time and the dict from the engine, either raises DownloadError (error
case, message of the exception) or returns the list of signal emissions
of this invocation. The cancellation check comes first, before any
emission. -/
def hook (cancel : Bool) (d : HookDict) : Except String (List Event) :=
  if cancel then .error "Cancelled by user"
  else if d.status = some "downloading" then
    .ok (progressTick d ++ [Event.status (downloadingMsg d)])
  else if d.status = some "finished" then
    .ok finishedPhaseEvents
  else .ok []

/-- The engine side of one job, recorded as data: the outcome of
os.makedirs, the outcome of ydl.extract_info (an optional title on
success, an exception message on failure), the sequence of dicts the
engine delivers to the progress hook during ydl.download, and the
outcome of the download call itself after those hook invocations
(its own exception, when the hooks did not abort it first). -/
structure EngineEnv where
  mkdir : Except String Unit
  extract : Except String (Option String)
  hookDicts : List HookDict
  downloadResult : Except String Unit

/-- Runs the progress hook over the dicts the engine delivers, starting
at invocation index i; cancelSeq gives the value of the _cancel flag
seen by the i-th invocation (the observer context may set it at any
time). Returns the emissions of the successful invocations and, when
some invocation raised, the message of that exception; the engine
delivers no further dicts after a hook raises. -/
def runHooks (cancelSeq : Nat → Bool) : List HookDict → Nat → List Event × Option String
  | [], _ => ([], none)
  | d :: ds, i =>
    match hook (cancelSeq i) d with
    | .error e => ([], some e)
    | .ok evs =>
      let rest := runHooks cancelSeq ds (i + 1)
      (evs ++ rest.1, rest.2)

/-- The three log emissions made before entering the YoutubeDL context:
the URL, the output directory, and the cookies file when set. -/
def preLogs (opts : DownloadOptions) : List Event :=
  [Event.log ("开始下载: " ++ opts.url), Event.log ("保存目录: " ++ opts.out_dir)] ++
    (match opts.cookies_file with
     | some c => [Event.log ("使用 cookies: " ++ c)]
     | none => [])

/-- The status and log emitted after extract_info when a title was found. -/
def titleEvents : Option String → List Event
  | some t => [Event.status ("解析成功: " ++ t), Event.log ("标题: " ++ t)]
  | none => []

/-- YtDlpWorker.run: the whole body sits in a try block whose except
clause emits finished(False, str(e)); a normal return of ydl.download
is followed by finished(True, "下载完成"). The result is the full trace
of signal emissions of the job. -/
def run (env : EngineEnv) (cancelSeq : Nat → Bool) (opts : DownloadOptions) : List Event :=
  match env.mkdir with
  | .error e => [Event.finished false e]
  | .ok _ =>
    match env.extract with
    | .error e => preLogs opts ++ [Event.finished false e]
    | .ok title =>
      let hv := runHooks cancelSeq env.hookDicts 0
      let body := preLogs opts ++ titleEvents title ++ hv.1
      match hv.2 with
      | some e => body ++ [Event.finished false e]
      | none =>
        match env.downloadResult with
        | .error e => body ++ [Event.finished false e]
        | .ok _ => body ++ [Event.finished true "下载完成"]

/-- The observable state touched by YtDlpWorker.cancel: the _cancel flag
and the emissions made so far on the worker signals. -/
structure WorkerState where
  cancel : Bool
  emitted : List Event
deriving DecidableEq, Repr

/-- The log line emitted by every call of YtDlpWorker.cancel. -/
def cancelLogMsg : String := "取消请求已发送，等待 yt-dlp 停止…"

/-- YtDlpWorker.cancel: sets _cancel to True and emits one log line. -/
def cancelOp (s : WorkerState) : WorkerState :=
  ⟨true, s.emitted ++ [Event.log cancelLogMsg]⟩

/-- Outcome of MainWindow.start_download before any thread is created:
either an early return behind a warning dialog, or the launch of the
worker thread with the options built from the form. -/
inductive StartResult where
  | rejected (warning : String)
  | launched (opts : DownloadOptions)
deriving DecidableEq, Repr

/-- Python str.strip(): removes leading and trailing whitespace. -/
def pyStrip (s : String) : String :=
  String.mk (((s.data.dropWhile Char.isWhitespace).reverse.dropWhile
    Char.isWhitespace).reverse)

/-- MainWindow.start_download up to the launch decision: the URL text is
stripped and must be non-empty, the chosen output directory must be
non-empty; the stripped cookies text becomes None when empty
(Python `or None`). Validation happens before the worker and the
thread exist. -/
def start_download (urlText out_dir cookiesText : String) : StartResult :=
  let url := pyStrip urlText
  if url = "" then .rejected "请输入链接"
  else if out_dir = "" then .rejected "请选择保存目录"
  else
    let cookies := pyStrip cookiesText
    .launched ⟨url, out_dir, if cookies = "" then none else some cookies⟩

/-- The background event trace produced by one click of the start button:
empty when validation rejected the request (no thread is started, so
the worker never runs), the trace of run otherwise. -/
def startEvents (env : EngineEnv) (cancelSeq : Nat → Bool)
    (urlText out_dir cookiesText : String) : List Event :=
  match start_download urlText out_dir cookiesText with
  | .launched opts => run env cancelSeq opts
  | .rejected _ => []

/-- Recognises the terminal event. -/
def isFinished : Event → Bool
  | .finished _ _ => true
  | _ => false

/-- Number of Finished events in a trace. -/
def countFinished (evs : List Event) : Nat := (evs.filter isFinished).length

/-- The clamp applied to the computed percentage in the "downloading"
branch: max(0, min(100, pct)). -/
def clampPct (x : Nat) : Nat := max 0 (min 100 x)

/-- C5 as stated by the spec: an output directory that cannot be created
makes Start fail synchronously before any background work, so the
background job emits no event at all — in particular the failure is not
surfaced via a background Finished event. -/
def mkdirFailureSurfacedFromStart : Prop :=
  ∀ (env : EngineEnv) (cancelSeq : Nat → Bool) (opts : DownloadOptions) (e : String),
    env.mkdir = Except.error e → run env cancelSeq opts = []

/-- C6 as stated by the spec: calling cancel twice has exactly the same
observable effect as calling it once. -/
def cancelIdempotent : Prop :=
  ∀ s : WorkerState, cancelOp (cancelOp s) = cancelOp s

theorem countFinished_append (a b : List Event) :
    countFinished (a ++ b) = countFinished a + countFinished b := by
  simp [countFinished, List.filter_append]

theorem countFinished_progressTick (d : HookDict) : countFinished (progressTick d) = 0 := by
  unfold progressTick
  rcases pyOr d.total_bytes d.total_bytes_estimate with _ | t <;>
    rcases d.downloaded_bytes with _ | b <;> try rfl
  dsimp only []
  split <;> rfl

theorem hook_ok_no_finished (c : Bool) (d : HookDict) (evs : List Event)
    (h : hook c d = Except.ok evs) : countFinished evs = 0 := by
  unfold hook at h
  split at h
  · cases h
  · split at h
    · injection h with h
      rw [← h, countFinished_append, countFinished_progressTick]
      rfl
    · split at h
      · injection h with h
        rw [← h]
        rfl
      · injection h with h
        rw [← h]
        rfl

theorem runHooks_fst_no_finished (cancelSeq : Nat → Bool) :
    ∀ (ds : List HookDict) (i : Nat), countFinished (runHooks cancelSeq ds i).1 = 0 := by
  intro ds
  induction ds with
  | nil => intro i; rfl
  | cons d ds ih =>
    intro i
    unfold runHooks
    cases hh : hook (cancelSeq i) d with
    | error e => rfl
    | ok evs =>
      dsimp only []
      rw [countFinished_append, hook_ok_no_finished _ _ _ hh, ih]

theorem countFinished_preLogs (opts : DownloadOptions) : countFinished (preLogs opts) = 0 := by
  unfold preLogs
  cases opts.cookies_file <;> rfl

theorem countFinished_titleEvents (t : Option String) : countFinished (titleEvents t) = 0 := by
  cases t <;> rfl

theorem countFinished_body (opts : DownloadOptions) (title : Option String)
    (cancelSeq : Nat → Bool) (ds : List HookDict) (i : Nat) :
    countFinished (preLogs opts ++ titleEvents title ++ (runHooks cancelSeq ds i).1) = 0 := by
  rw [countFinished_append, countFinished_append, countFinished_preLogs,
    countFinished_titleEvents, runHooks_fst_no_finished]

/-- C1: for every job run of the worker — any engine behaviour, any
history of the cancellation flag, any options — the emitted trace is a
prefix containing no Finished event followed by exactly one Finished
event; so Finished is emitted exactly once, is the last event of the
job, and no event of any kind follows it, on both the success and the
failure path. -/
theorem run_finished_exactly_once_and_last (env : EngineEnv) (cancelSeq : Nat → Bool)
    (opts : DownloadOptions) :
    ∃ (evs : List Event) (ok : Bool) (msg : String),
      run env cancelSeq opts = evs ++ [Event.finished ok msg] ∧ countFinished evs = 0 := by
  unfold run
  cases env.mkdir with
  | error e => exact ⟨[], false, e, rfl, rfl⟩
  | ok _ =>
    cases env.extract with
    | error e => exact ⟨preLogs opts, false, e, rfl, countFinished_preLogs opts⟩
    | ok title =>
      cases hv : (runHooks cancelSeq env.hookDicts 0).2 with
      | some e =>
        refine ⟨preLogs opts ++ titleEvents title ++ (runHooks cancelSeq env.hookDicts 0).1,
          false, e, ?_, countFinished_body opts title cancelSeq env.hookDicts 0⟩
        dsimp only []
        rw [hv]
      | none =>
        cases env.downloadResult with
        | error e =>
          refine ⟨preLogs opts ++ titleEvents title ++ (runHooks cancelSeq env.hookDicts 0).1,
            false, e, ?_, countFinished_body opts title cancelSeq env.hookDicts 0⟩
          dsimp only []
          rw [hv]
        | ok _ =>
          refine ⟨preLogs opts ++ titleEvents title ++ (runHooks cancelSeq env.hookDicts 0).1,
            true, "下载完成", ?_, countFinished_body opts title cancelSeq env.hookDicts 0⟩
          dsimp only []
          rw [hv]

/-- C2: whenever the hook runs in the "downloading" phase with the
cancellation flag unset, the resolved total is a known t greater than 0
and downloaded_bytes is a present b, the emitted Progress value is
clamp(floor(b * 100 / t), 0, 100) — floor because b * 100 / t is
natural-number division — and a Status event follows it in the same
tick. -/
theorem downloading_progress_value (d : HookDict) (t b : Nat)
    (hs : d.status = some "downloading")
    (ht : pyOr d.total_bytes d.total_bytes_estimate = some t)
    (htpos : 0 < t)
    (hb : d.downloaded_bytes = some b) :
    hook false d = Except.ok
      [Event.progress (clampPct (b * 100 / t)), Event.status (downloadingMsg d)] := by
  unfold hook progressTick clampPct
  rw [ht, hb]
  simp [hs, Nat.pos_iff_ne_zero.mp htpos]

/-- C2 witness: with total_bytes = 1000000 and downloaded_bytes = 512000
the hook emits Progress 51, the value the spec example requires. -/
theorem downloading_progress_value_witness :
    clampPct (512000 * 100 / 1000000) = 51 ∧
    hook false ⟨some "downloading", some 1000000, none, some 512000, none, none, "a.mp4"⟩ =
      Except.ok [Event.progress (clampPct (512000 * 100 / 1000000)),
        Event.status (downloadingMsg
          ⟨some "downloading", some 1000000, none, some 512000, none, none, "a.mp4"⟩)] :=
  ⟨by decide,
   downloading_progress_value
     ⟨some "downloading", some 1000000, none, some 512000, none, none, "a.mp4"⟩
     1000000 512000 rfl rfl (by decide) rfl⟩

/-- C3: in the "downloading" phase with cancellation unset, when the
engine reports no total size (total_bytes and total_bytes_estimate both
absent) the tick emits only the Status line: no Progress event,
whatever downloaded_bytes is. -/
theorem no_progress_when_total_unknown (d : HookDict)
    (hs : d.status = some "downloading")
    (ht : d.total_bytes = none) (hte : d.total_bytes_estimate = none) :
    hook false d = Except.ok [Event.status (downloadingMsg d)] := by
  unfold hook progressTick pyOr
  rw [ht, hte]
  simp [hs]

/-- C3 witness: total unknown with downloaded_bytes = 7777 emits only a
Status event. -/
theorem no_progress_when_total_unknown_witness :
    hook false ⟨some "downloading", none, none, some 7777, none, none, "b.mp4"⟩ =
      Except.ok [Event.status (downloadingMsg
        ⟨some "downloading", none, none, some 7777, none, none, "b.mp4"⟩)] :=
  no_progress_when_total_unknown
    ⟨some "downloading", none, none, some 7777, none, none, "b.mp4"⟩ rfl rfl rfl

/-- C4: the try/except boundary of YtDlpWorker.run. When the blocking
download returns normally the job ends with finished(True, "下载完成")
("download complete"); when any step raises — directory creation,
metadata extraction, a hook invocation (including the cancellation
abort), or the download call itself — the exception is caught at the
job boundary and converted to finished(False, message): run always
returns a trace, never an unhandled fault. -/
theorem run_outcome (env : EngineEnv) (cancelSeq : Nat → Bool) (opts : DownloadOptions) :
    (∀ title, env.mkdir = Except.ok () → env.extract = Except.ok title →
      (runHooks cancelSeq env.hookDicts 0).2 = none → env.downloadResult = Except.ok () →
      run env cancelSeq opts =
        preLogs opts ++ titleEvents title ++ (runHooks cancelSeq env.hookDicts 0).1 ++
          [Event.finished true "下载完成"]) ∧
    (∀ e, env.mkdir = Except.error e →
      run env cancelSeq opts = [Event.finished false e]) ∧
    (∀ e, env.mkdir = Except.ok () → env.extract = Except.error e →
      run env cancelSeq opts = preLogs opts ++ [Event.finished false e]) ∧
    (∀ title e, env.mkdir = Except.ok () → env.extract = Except.ok title →
      (runHooks cancelSeq env.hookDicts 0).2 = some e →
      run env cancelSeq opts =
        preLogs opts ++ titleEvents title ++ (runHooks cancelSeq env.hookDicts 0).1 ++
          [Event.finished false e]) ∧
    (∀ title e, env.mkdir = Except.ok () → env.extract = Except.ok title →
      (runHooks cancelSeq env.hookDicts 0).2 = none → env.downloadResult = Except.error e →
      run env cancelSeq opts =
        preLogs opts ++ titleEvents title ++ (runHooks cancelSeq env.hookDicts 0).1 ++
          [Event.finished false e]) := by
  refine ⟨?_, ?_, ?_, ?_, ?_⟩
  · intro title hm he hh hd
    unfold run
    rw [hm, he]
    dsimp only []
    rw [hh, hd, List.append_assoc, List.append_assoc, List.append_assoc]
  · intro e hm
    unfold run
    rw [hm]
  · intro e hm he
    unfold run
    rw [hm, he]
  · intro title e hm he hh
    unfold run
    rw [hm, he]
    dsimp only []
    rw [hh, List.append_assoc, List.append_assoc, List.append_assoc]
  · intro title e hm he hh hd
    unfold run
    rw [hm, he]
    dsimp only []
    rw [hh, hd, List.append_assoc, List.append_assoc, List.append_assoc]

/-- C4 witness: a job whose engine interactions all succeed (no hook
invocations, title "T") ends with finished(True, "下载完成"); a job whose
metadata extraction raises "no video" ends with finished(False,
"no video"). -/
theorem run_outcome_witness :
    run ⟨Except.ok (), Except.ok (some "T"), [], Except.ok ()⟩ (fun _ => false)
        ⟨"u", "/out", none⟩ =
      preLogs ⟨"u", "/out", none⟩ ++ titleEvents (some "T") ++
        (runHooks (fun _ => false) [] 0).1 ++ [Event.finished true "下载完成"] ∧
    run ⟨Except.ok (), Except.error "no video", [], Except.ok ()⟩ (fun _ => false)
        ⟨"u", "/out", none⟩ =
      preLogs ⟨"u", "/out", none⟩ ++ [Event.finished false "no video"] :=
  ⟨(run_outcome ⟨Except.ok (), Except.ok (some "T"), [], Except.ok ()⟩ (fun _ => false)
      ⟨"u", "/out", none⟩).1 (some "T") rfl rfl rfl rfl,
   (run_outcome ⟨Except.ok (), Except.error "no video", [], Except.ok ()⟩ (fun _ => false)
      ⟨"u", "/out", none⟩).2.2.1 "no video" rfl rfl⟩

/-- C5 counterexample: os.makedirs runs inside the try block of
YtDlpWorker.run, on the background thread; with mkdir failing with
"Permission denied" the background job emits finished(False,
"Permission denied"), so the failure is surfaced via a background
event, not synchronously from Start. -/
theorem mkdirFailureSurfacedFromStart_false : ¬ mkdirFailureSurfacedFromStart := by
  intro h
  have hc := h ⟨Except.error "Permission denied", Except.ok none, [], Except.ok ()⟩
    (fun _ => false) ⟨"u", "/out", none⟩ "Permission denied" rfl
  simp [run] at hc

/-- C5 amended: when the output directory cannot be created, the failure
is still detected before any engine work — the background job performs
no extraction and no hook runs and emits nothing else — but it is
surfaced asynchronously, as the single background event
finished(False, error), not synchronously from Start. -/
theorem mkdir_failure_surfaced_as_finished (env : EngineEnv) (cancelSeq : Nat → Bool)
    (opts : DownloadOptions) (e : String) (h : env.mkdir = Except.error e) :
    run env cancelSeq opts = [Event.finished false e] := by
  unfold run
  rw [h]

/-- C5 amended witness: the concrete "Permission denied" failure yields
exactly the one background Finished event. -/
theorem mkdir_failure_surfaced_as_finished_witness :
    run ⟨Except.error "Permission denied", Except.ok none, [], Except.ok ()⟩
      (fun _ => false) ⟨"u", "/out", none⟩ =
      [Event.finished false "Permission denied"] :=
  mkdir_failure_surfaced_as_finished
    ⟨Except.error "Permission denied", Except.ok none, [], Except.ok ()⟩
    (fun _ => false) ⟨"u", "/out", none⟩ "Permission denied" rfl

/-- C6 counterexample: every call of YtDlpWorker.cancel emits the log
line 取消请求已发送… over the log signal, so a second call appends a
second copy of that line: starting from the fresh worker state the
two-call trace has two log events, the one-call trace has one. -/
theorem cancelIdempotent_false : ¬ cancelIdempotent := by
  intro h
  have hc := h ⟨false, []⟩
  simp [cancelOp] at hc

/-- C6 amended: cancel is idempotent on the cancellation flag — the
second call leaves the flag exactly as the first left it, so the job
terminates the same way — but each call also emits one copy of the
cancellation log line, so the only additional observable effect of the
second call is one extra Log event. -/
theorem cancel_flag_idempotent_extra_log (s : WorkerState) :
    (cancelOp (cancelOp s)).cancel = (cancelOp s).cancel ∧
    (cancelOp (cancelOp s)).emitted = (cancelOp s).emitted ++ [Event.log cancelLogMsg] :=
  ⟨rfl, rfl⟩

/-- C7: with the cancellation flag already set when the first progress
callback fires, that invocation aborts first thing — it raises
DownloadError("Cancelled by user") for any dict, before emitting any
event — and the job ends with finished(False, "Cancelled by user") as
its last event, the trace containing no hook emission at all. -/
theorem cancel_before_first_callback (env : EngineEnv) (cancelSeq : Nat → Bool)
    (opts : DownloadOptions) (title : Option String) (d : HookDict) (ds : List HookDict)
    (hc : cancelSeq 0 = true)
    (hm : env.mkdir = Except.ok ()) (he : env.extract = Except.ok title)
    (hd : env.hookDicts = d :: ds) :
    hook (cancelSeq 0) d = Except.error "Cancelled by user" ∧
    run env cancelSeq opts =
      preLogs opts ++ titleEvents title ++ [Event.finished false "Cancelled by user"] := by
  have hhook : hook (cancelSeq 0) d = Except.error "Cancelled by user" := by
    unfold hook
    rw [hc]
    rfl
  refine ⟨hhook, ?_⟩
  have hrh : runHooks cancelSeq (d :: ds) 0 = ([], some "Cancelled by user") := by
    unfold runHooks
    rw [hhook]
  unfold run
  rw [hm, he]
  dsimp only []
  rw [hd, hrh]
  simp

/-- C7 witness: cancel requested from the start, one pending callback
dict; the hook aborts and the trace ends with the cancellation
failure. -/
theorem cancel_before_first_callback_witness :
    hook true ⟨some "downloading", some 10, none, some 5, none, none, "c.mp4"⟩ =
      Except.error "Cancelled by user" ∧
    run ⟨Except.ok (), Except.ok none,
        [⟨some "downloading", some 10, none, some 5, none, none, "c.mp4"⟩], Except.ok ()⟩
      (fun _ => true) ⟨"u", "/out", none⟩ =
      preLogs ⟨"u", "/out", none⟩ ++ titleEvents none ++
        [Event.finished false "Cancelled by user"] :=
  cancel_before_first_callback
    ⟨Except.ok (), Except.ok none,
      [⟨some "downloading", some 10, none, some 5, none, none, "c.mp4"⟩], Except.ok ()⟩
    (fun _ => true) ⟨"u", "/out", none⟩ none
    ⟨some "downloading", some 10, none, some 5, none, none, "c.mp4"⟩ [] rfl rfl rfl rfl

/-- C8: a start request whose stripped URL is empty, or whose chosen
output directory is empty, is rejected by MainWindow.start_download
before the worker and its thread are created, and such a start attempt
produces no background event — in particular no Finished event ever. -/
theorem start_rejects_empty (env : EngineEnv) (cancelSeq : Nat → Bool)
    (urlText out_dir cookiesText : String)
    (h : pyStrip urlText = "" ∨ out_dir = "") :
    (∃ w, start_download urlText out_dir cookiesText = StartResult.rejected w) ∧
    startEvents env cancelSeq urlText out_dir cookiesText = [] ∧
    countFinished (startEvents env cancelSeq urlText out_dir cookiesText) = 0 := by
  have hrej : ∃ w, start_download urlText out_dir cookiesText = StartResult.rejected w := by
    unfold start_download
    rcases h with h | h
    · exact ⟨"请输入链接", by rw [h]; rfl⟩
    · by_cases hu : pyStrip urlText = ""
      · exact ⟨"请输入链接", by rw [hu]; rfl⟩
      · exact ⟨"请选择保存目录", by simp [hu, h]⟩
  obtain ⟨w, hw⟩ := hrej
  have hev : startEvents env cancelSeq urlText out_dir cookiesText = [] := by
    unfold startEvents
    rw [hw]
  exact ⟨⟨w, hw⟩, hev, by rw [hev]; rfl⟩

/-- C8 witness: a whitespace-only URL is rejected and yields an empty
background trace even for an engine that would have succeeded. -/
theorem start_rejects_empty_witness :
    ((pyStrip " " = "" ∨ "/out" = "") ∧
      startEvents ⟨Except.ok (), Except.ok none, [], Except.ok ()⟩ (fun _ => false)
        " " "/out" "" = []) ∧
    countFinished (startEvents ⟨Except.ok (), Except.ok none, [], Except.ok ()⟩
      (fun _ => false) " " "/out" "") = 0 :=
  ⟨⟨Or.inl (by decide),
    (start_rejects_empty ⟨Except.ok (), Except.ok none, [], Except.ok ()⟩ (fun _ => false)
      " " "/out" "" (Or.inl (by decide))).2.1⟩,
   (start_rejects_empty ⟨Except.ok (), Except.ok none, [], Except.ok ()⟩ (fun _ => false)
      " " "/out" "" (Or.inl (by decide))).2.2⟩

/-- C9: in the "finished" phase with cancellation unset the hook emits
exactly Progress 100, then the Status line 下载完成，正在后处理/合并…
(post-processing/merging underway), then the Log line
文件下载完成，等待后处理… (raw download stage completed), in that
order and nothing else. -/
theorem finished_phase_relay (d : HookDict) (hs : d.status = some "finished") :
    hook false d = Except.ok
      [Event.progress 100,
       Event.status "下载完成，正在后处理/合并…",
       Event.log "文件下载完成，等待后处理…"] := by
  unfold hook
  simp [hs, finishedPhaseEvents]

/-- C9 witness: a concrete "finished" tick emits the triple. -/
theorem finished_phase_relay_witness :
    hook false ⟨some "finished", none, none, none, none, none, "d.mp4"⟩ =
      Except.ok [Event.progress 100,
        Event.status "下载完成，正在后处理/合并…",
        Event.log "文件下载完成，等待后处理…"] :=
  finished_phase_relay ⟨some "finished", none, none, none, none, none, "d.mp4"⟩ rfl

/-- C10: the percentage division is guarded — in a "downloading" tick
with cancellation unset, when the resolved total (total_bytes, else
total_bytes_estimate) is absent or zero, or downloaded_bytes is absent,
the tick emits no Progress event (so no division takes place) yet still
emits its Status event. -/
theorem progress_division_guarded (d : HookDict)
    (hs : d.status = some "downloading")
    (h : truthy (pyOr d.total_bytes d.total_bytes_estimate) = false ∨
      d.downloaded_bytes = none) :
    hook false d = Except.ok [Event.status (downloadingMsg d)] := by
  have htick : progressTick d = [] := by
    unfold progressTick
    rcases hp : pyOr d.total_bytes d.total_bytes_estimate with _ | t
    · rfl
    · rcases hb : d.downloaded_bytes with _ | b
      · rfl
      · rcases h with h | h
        · rw [hp] at h
          simp [truthy] at h
          simp [h]
        · rw [h] at hb
          cases hb
  unfold hook
  simp [hs, htick]

/-- C10 witness: a zero total_bytes with an absent estimate suppresses
Progress while the Status event is still emitted. -/
theorem progress_division_guarded_witness :
    hook false ⟨some "downloading", some 0, none, some 123, none, none, "e.mp4"⟩ =
      Except.ok [Event.status (downloadingMsg
        ⟨some "downloading", some 0, none, some 123, none, none, "e.mp4"⟩)] :=
  progress_division_guarded
    ⟨some "downloading", some 0, none, some 123, none, none, "e.mp4"⟩ rfl
    (Or.inl rfl)

end GrabberX
